import Mathlib

/-!
Verification of the custodial deposit/withdraw agent in `src/main.go`.

The file shallowly embeds the program: the withdrawal pipeline
(`withdraw`, lines 31-81), the deposit-monitoring receive loop
(`monitorDeposits`, lines 84-109), key generation (`generateKeypair`,
lines 22-28) and the entry-point amount computation (line 130).
The gateway (the solana-go rpc/ws client) is external to the repository;
its calls are modelled by stubbed responses plus an explicit trace of the
arguments the program passes, and the solana-go helpers the program calls
(`NewTransferInstruction`, `NewTransaction`, `Transaction.Sign`) are
modelled by Lean functions mirroring their documented behaviour.
`log.Fatalf` terminates the whole process; it is modelled by a dedicated
`fatal` outcome, distinct from any value returned to a caller.
-/

namespace SolDW

/-- Commitment levels of the rpc package; the source only ever passes
`finalized` (`rpc.CommitmentFinalized`). -/
inductive Commitment where
  | finalized
  | confirmed
  | processed
deriving DecidableEq, Repr

/-- `true` exactly on the `finalized` commitment level. -/
def Commitment.isFinalized : Commitment → Bool
  | .finalized => true
  | _ => false

/-- A public key (account identity), kept opaque. -/
structure PublicKey where
  id : Nat
deriving DecidableEq, Repr

/-- A private key; `publicKey` is the deterministic derivation
`solana.PrivateKey.PublicKey()`. -/
structure PrivateKey where
  seed : Nat
deriving DecidableEq, Repr

/-- The public identity derived from the private material. -/
def PrivateKey.publicKey (k : PrivateKey) : PublicKey :=
  ⟨k.seed⟩

/-- The system-program transfer instruction built by
`system.NewTransferInstruction(amount, from, to).Build()`
(src/main.go lines 41-45). -/
structure TransferInstruction where
  lamports : Nat
  fundingAccount : PublicKey
  recipientAccount : PublicKey
deriving DecidableEq, Repr

/-- `system.NewTransferInstruction(amount, from, to).Build()`. -/
def NewTransferInstruction (lamports : Nat) (funding recipient : PublicKey) :
    TransferInstruction :=
  { lamports := lamports, fundingAccount := funding, recipientAccount := recipient }

/-- The transaction envelope assembled by `solana.NewTransaction`:
instruction list, recent blockhash, and the fee payer designated by the
`solana.TransactionPayer` option. -/
structure Transaction where
  instructions : List TransferInstruction
  recentBlockhash : Nat
  feePayer : PublicKey
deriving DecidableEq, Repr

/-- Models `solana.NewTransaction`: fails on an empty instruction list,
otherwise assembles the envelope. -/
def NewTransaction (instrs : List TransferInstruction) (blockhash : Nat)
    (payer : PublicKey) : Except String Transaction :=
  if instrs.isEmpty then Except.error "requires at least one instruction"
  else Except.ok { instructions := instrs, recentBlockhash := blockhash, feePayer := payer }

/-- A signature over the transaction message, identified by the private
material that produced it. -/
structure Signature where
  producedBy : PrivateKey
deriving DecidableEq, Repr

/-- The accounts whose signatures the message requires: the fee payer and
each instruction's funding account, without duplicates. -/
def Transaction.requiredSigners (tx : Transaction) : List PublicKey :=
  (tx.feePayer :: tx.instructions.map (fun i => i.fundingAccount)).dedup

/-- A transaction together with the signatures attached by signing. -/
structure SignedTransaction where
  tx : Transaction
  signatures : List Signature
deriving DecidableEq, Repr

/-- For each required signer, ask the key getter for the matching private
key; a missing key aborts signing with an error — it never leaves the
transaction silently unsigned. Models the signer loop of
`solana.Transaction.Sign`. -/
def signEach (getter : PublicKey → Option PrivateKey) :
    List PublicKey → Except String (List Signature)
  | [] => Except.ok []
  | k :: ks =>
    match getter k with
    | none => Except.error "signer key not found"
    | some priv =>
      match signEach getter ks with
      | Except.error e => Except.error e
      | Except.ok sigs => Except.ok (⟨priv⟩ :: sigs)

/-- `tx.Sign(getter)`: sign the message with the keys the getter supplies
for the required signers. -/
def Transaction.sign (tx : Transaction) (getter : PublicKey → Option PrivateKey) :
    Except String SignedTransaction :=
  match signEach getter tx.requiredSigners with
  | Except.error e => Except.error e
  | Except.ok sigs => Except.ok { tx := tx, signatures := sigs }

/-- Stubbed gateway responses for one `withdraw` run: what
`GetRecentBlockhash` and `SendTransactionWithOpts` would return. -/
structure Gateway where
  recentBlockhashResult : Except String Nat
  sendResult : Except String String

/-- One call made to the gateway, with the arguments the source passes. -/
inductive GatewayCall where
  | getRecentBlockhash (commitment : Commitment)
  | sendTransaction (stx : SignedTransaction) (skipPreflight : Bool)
      (preflightCommitment : Commitment)
deriving DecidableEq, Repr

/-- `true` exactly on submission calls. -/
def GatewayCall.isSend : GatewayCall → Bool
  | .sendTransaction _ _ _ => true
  | _ => false

/-- `true` iff the call uses the `finalized` commitment level and, for a
submission, preflight simulation is not skipped. -/
def GatewayCall.usesFinalized : GatewayCall → Bool
  | .getRecentBlockhash cm => cm.isFinalized
  | .sendTransaction _ skipPreflight pc => !skipPreflight && pc.isFinalized

/-- The step of `withdraw` at which `log.Fatalf` fired. -/
inductive WithdrawStage where
  | fetchBlockhash
  | buildTransaction
  | signTransaction
  | submitTransaction
deriving DecidableEq, Repr

/-- Result of one run of `withdraw`. The Go function returns no value to
its caller; `fatal` models `log.Fatalf`, which terminates the whole
process, and `success` models the success print at line 80. -/
inductive WithdrawOutcome where
  | fatal (stage : WithdrawStage) (msg : String)
  | success (sig : String)
deriving DecidableEq, Repr

/-- `true` iff the outcome models `log.Fatalf`, i.e. process termination. -/
def WithdrawOutcome.abortsProcess : WithdrawOutcome → Bool
  | .fatal _ _ => true
  | .success _ => false

/-- The signing callback of src/main.go lines 56-61: supply the private
key only when the requested key equals the funding account's public key,
otherwise supply nothing. -/
def withdrawGetter (fromPrivateKey : PrivateKey) (key : PublicKey) :
    Option PrivateKey :=
  if key = fromPrivateKey.publicKey then some fromPrivateKey else none

/-- `withdraw(client, fromPrivateKey, toPublicKey, amount)`
(src/main.go lines 31-81), returning the outcome together with the trace
of gateway calls made, in order. -/
def withdraw (client : Gateway) (fromPrivateKey : PrivateKey)
    (toPublicKey : PublicKey) (amount : Nat) :
    WithdrawOutcome × List GatewayCall :=
  match client.recentBlockhashResult with
  | Except.error e =>
    (WithdrawOutcome.fatal WithdrawStage.fetchBlockhash e,
     [GatewayCall.getRecentBlockhash Commitment.finalized])
  | Except.ok blockhash =>
    match NewTransaction
        [NewTransferInstruction amount fromPrivateKey.publicKey toPublicKey]
        blockhash fromPrivateKey.publicKey with
    | Except.error e =>
      (WithdrawOutcome.fatal WithdrawStage.buildTransaction e,
       [GatewayCall.getRecentBlockhash Commitment.finalized])
    | Except.ok tx =>
      match tx.sign (withdrawGetter fromPrivateKey) with
      | Except.error e =>
        (WithdrawOutcome.fatal WithdrawStage.signTransaction e,
         [GatewayCall.getRecentBlockhash Commitment.finalized])
      | Except.ok stx =>
        match client.sendResult with
        | Except.error e =>
          (WithdrawOutcome.fatal WithdrawStage.submitTransaction e,
           [GatewayCall.getRecentBlockhash Commitment.finalized,
            GatewayCall.sendTransaction stx false Commitment.finalized])
        | Except.ok sig =>
          (WithdrawOutcome.success sig,
           [GatewayCall.getRecentBlockhash Commitment.finalized,
            GatewayCall.sendTransaction stx false Commitment.finalized])

/-- A normalized balance update emitted by the monitor. The source emits
updates synchronously, one per received notification, in receive order
(src/main.go lines 104-107); `seq` records the arrival index of the
notification in the receive stream, i.e. the position the source's
emission order implicitly assigns. -/
structure BalanceUpdateEvent where
  account : PublicKey
  lamports : Nat
  seq : Nat
deriving DecidableEq, Repr

/-- Control outcome of one iteration of the receive loop. -/
inductive LoopControl where
  | continueLoop
  | exitLoop
deriving DecidableEq, Repr

/-- One iteration of the receive loop (src/main.go lines 97-108) on the
result of `sub.Recv`: a receive error is logged (`log.Printf`) and the
loop continues; a notification is emitted as a balance update and the
loop continues. No branch exits the loop, and the `context.Background()`
passed to `Recv` is not cancellable. Returns (emitted event, whether an
error was logged, loop control). -/
def monitorBody (account : PublicKey) (i : Nat) :
    Except String Nat → Option BalanceUpdateEvent × Bool × LoopControl
  | Except.error _ => (none, true, LoopControl.continueLoop)
  | Except.ok lamports => (some ⟨account, lamports, i⟩, false, LoopControl.continueLoop)

/-- Observable trace of running the monitor loop over a finite prefix of
the receive stream: the events emitted in order, the number of receive
errors logged, whether the loop exited, and how often the deferred
`sub.Unsubscribe()` (src/main.go line 93) ran — it runs exactly when
`monitorDeposits` returns, i.e. when the loop exits. -/
structure MonitorTrace where
  events : List BalanceUpdateEvent
  errorLogs : Nat
  exited : Bool
  unsubscribeCalls : Nat
deriving DecidableEq, Repr

/-- Run the receive loop of `monitorDeposits` over a finite prefix of the
stream of `Recv` results, starting at arrival index `i`. -/
def monitorRun (account : PublicKey) (i : Nat) :
    List (Except String Nat) → MonitorTrace
  | [] => { events := [], errorLogs := 0, exited := false, unsubscribeCalls := 0 }
  | r :: rest =>
    match monitorBody account i r with
    | (ev, logged, LoopControl.continueLoop) =>
      let t := monitorRun account (i + 1) rest
      { events := ev.toList ++ t.events
        errorLogs := (if logged then 1 else 0) + t.errorLogs
        exited := t.exited
        unsubscribeCalls := t.unsubscribeCalls }
    | (_, _, LoopControl.exitLoop) =>
      { events := [], errorLogs := 0, exited := true, unsubscribeCalls := 1 }

/-- The subscription request `monitorDeposits` opens
(src/main.go lines 86-89): `wsClient.AccountSubscribe(account,
rpc.CommitmentFinalized)`. -/
structure AccountSubscribeRequest where
  account : PublicKey
  commitment : Commitment
deriving DecidableEq, Repr

/-- The arguments `monitorDeposits` passes to `AccountSubscribe`. -/
def monitorSubscribe (account : PublicKey) : AccountSubscribeRequest :=
  { account := account, commitment := Commitment.finalized }

/-- Result of `generateKeypair`: a failed key generation hits
`log.Fatalf` and terminates the process. -/
inductive KeypairOutcome where
  | fatal (msg : String)
  | ok (key : PrivateKey)
deriving DecidableEq, Repr

/-- `generateKeypair` (src/main.go lines 22-28), over the stubbed result
of `solana.NewRandomPrivateKey()`. -/
def generateKeypair (entropy : Except String PrivateKey) : KeypairOutcome :=
  match entropy with
  | Except.error e => KeypairOutcome.fatal e
  | Except.ok k => KeypairOutcome.ok k

/-- `LamportsPerSOL = 1_000_000_000` (src/main.go line 18). -/
def LamportsPerSOL : Nat := 1000000000

/-- `amount := uint64(0.1 * LamportsPerSOL)` (src/main.go line 130).
Go evaluates arithmetic on untyped constants exactly over the rationals,
and the conversion to `uint64` is only legal because the value is an
exact integer; the floor is therefore the identity here. -/
def mainAmount : Nat := (⌊(1 / 10 : ℚ) * (LamportsPerSOL : ℚ)⌋).toNat

/-- Signing the single-instruction transfer transaction with the
source's signing callback succeeds and attaches exactly the one
signature produced by the source's private material. -/
theorem sign_transfer_tx (k : PrivateKey) (dest : PublicKey) (amt bh : Nat) :
    Transaction.sign ⟨[NewTransferInstruction amt k.publicKey dest], bh, k.publicKey⟩
      (withdrawGetter k) =
    Except.ok ⟨⟨[NewTransferInstruction amt k.publicKey dest], bh, k.publicKey⟩, [⟨k⟩]⟩ := by
  have hd : Transaction.requiredSigners
      ⟨[NewTransferInstruction amt k.publicKey dest], bh, k.publicKey⟩ = [k.publicKey] := by
    simp [Transaction.requiredSigners, NewTransferInstruction, List.dedup_cons_of_mem]
  simp [Transaction.sign, hd, signEach, withdrawGetter]

/-- Closed form of `withdraw` once the blockhash fetch succeeds: the
trace is one blockhash fetch followed by one submission of the signed
single-transfer transaction, and the outcome follows the submission
result. -/
theorem withdraw_ok_unfold (gw : Gateway) (k : PrivateKey) (dest : PublicKey)
    (amt bh : Nat) (hbh : gw.recentBlockhashResult = Except.ok bh) :
    withdraw gw k dest amt =
      ((match gw.sendResult with
        | Except.error e => WithdrawOutcome.fatal WithdrawStage.submitTransaction e
        | Except.ok s => WithdrawOutcome.success s),
       [GatewayCall.getRecentBlockhash Commitment.finalized,
        GatewayCall.sendTransaction
          ⟨⟨[NewTransferInstruction amt k.publicKey dest], bh, k.publicKey⟩, [⟨k⟩]⟩
          false Commitment.finalized]) := by
  unfold withdraw
  rw [hbh]
  simp [NewTransaction, sign_transfer_tx]
  cases gw.sendResult <;> simp

/-- `signEach` never returns a partially signed list: a successful
result has one signature per required signer. -/
theorem signEach_ok_length (getter : PublicKey → Option PrivateKey)
    (ks : List PublicKey) :
    ∀ sigs, signEach getter ks = Except.ok sigs → sigs.length = ks.length := by
  induction ks with
  | nil =>
    intro sigs h
    simp [signEach] at h
    simp [← h]
  | cons k ks ih =>
    intro sigs h
    simp only [signEach] at h
    cases hg : getter k with
    | none => rw [hg] at h; cases h
    | some priv =>
      rw [hg] at h
      cases hr : signEach getter ks with
      | error e => rw [hr] at h; cases h
      | ok sigs2 =>
        rw [hr] at h
        cases h
        simp [ih sigs2 hr]

/-- Over a stream of successfully received notifications the loop emits
one event per notification, with the lamport balances in receive order,
sequence numbers `i, i+1, ...`, and no error logged. -/
theorem monitorRun_map_ok (a : PublicKey) (ns : List Nat) :
    ∀ i, (monitorRun a i (ns.map Except.ok)).events.map (fun e => e.lamports) = ns ∧
      (monitorRun a i (ns.map Except.ok)).events.map (fun e => e.seq) =
        List.range' i ns.length ∧
      (monitorRun a i (ns.map Except.ok)).errorLogs = 0 := by
  induction ns with
  | nil => intro i; simp [monitorRun]
  | cons n ns ih =>
    intro i
    simp [monitorRun, monitorBody, List.range'_succ, ih (i + 1)]

/-- The receive loop has no exit path: no input makes it stop, and the
deferred `Unsubscribe` therefore never runs. -/
theorem monitorRun_never_exits (a : PublicKey) (rs : List (Except String Nat)) :
    ∀ i, (monitorRun a i rs).exited = false ∧
      (monitorRun a i rs).unsubscribeCalls = 0 := by
  induction rs with
  | nil => intro i; simp [monitorRun]
  | cons r rest ih =>
    intro i
    cases r <;> simp [monitorRun, monitorBody, ih (i + 1)]

/-- A stream with one receive error among good notifications: the error
is logged once and every good notification is still emitted, in order. -/
theorem monitorRun_one_error (a : PublicKey) (ns2 : List Nat) (e : String)
    (ns1 : List Nat) :
    ∀ i,
      (monitorRun a i
          (ns1.map Except.ok ++ Except.error e :: ns2.map Except.ok)).events.map
        (fun ev => ev.lamports) = ns1 ++ ns2 ∧
      (monitorRun a i
          (ns1.map Except.ok ++ Except.error e :: ns2.map Except.ok)).errorLogs = 1 := by
  induction ns1 with
  | nil =>
    intro i
    simp [monitorRun, monitorBody, (monitorRun_map_ok a ns2 (i + 1)).1,
      (monitorRun_map_ok a ns2 (i + 1)).2.2]
  | cons n ns1 ih =>
    intro i
    simp [monitorRun, monitorBody, ih (i + 1)]

/-- C1: For every valid call to the withdrawal operation (source
keypair, destination public key, amount > 0) whose blockhash fetch
succeeds, the transaction `withdraw` builds and submits contains exactly
one transfer instruction, that instruction carries exactly the given
amount and destination identity, and the transaction's fee payer is the
source's public identity. -/
theorem C1_single_exact_transfer (gw : Gateway) (k : PrivateKey) (dest : PublicKey)
    (amt bh : Nat) (_hamt : 0 < amt)
    (hbh : gw.recentBlockhashResult = Except.ok bh) :
    ∃ stx sp pc,
      GatewayCall.sendTransaction stx sp pc ∈ (withdraw gw k dest amt).2 ∧
      stx.tx.instructions = [NewTransferInstruction amt k.publicKey dest] ∧
      stx.tx.feePayer = k.publicKey ∧ stx.tx.recentBlockhash = bh := by
  rw [withdraw_ok_unfold gw k dest amt bh hbh]
  refine ⟨⟨⟨[NewTransferInstruction amt k.publicKey dest], bh, k.publicKey⟩, [⟨k⟩]⟩,
    false, Commitment.finalized, ?_, rfl, rfl, rfl⟩
  simp

/-- C1 witness at a concrete input. -/
theorem C1_single_exact_transfer_wit :
    0 < (5 : Nat) ∧
    ∃ stx sp pc,
      GatewayCall.sendTransaction stx sp pc ∈
        (withdraw ⟨Except.ok 7, Except.ok "sig"⟩ ⟨1⟩ ⟨2⟩ 5).2 ∧
      stx.tx.instructions = [NewTransferInstruction 5 (PrivateKey.publicKey ⟨1⟩) ⟨2⟩] ∧
      stx.tx.feePayer = PrivateKey.publicKey ⟨1⟩ ∧ stx.tx.recentBlockhash = 7 :=
  ⟨by decide,
   C1_single_exact_transfer ⟨Except.ok 7, Except.ok "sig"⟩ ⟨1⟩ ⟨2⟩ 5 7 (by decide) rfl⟩

/-- C2: the submitted signed transaction carries exactly one signature,
produced by the source's private material; the signing callback supplies
a private key only for the source's own public identity and yields no
key for any other requested public key; and a successful sign always
covers every required signer, so signing never silently produces a
transaction with missing signatures. -/
theorem C2_single_signature (gw : Gateway) (k : PrivateKey) (dest : PublicKey)
    (amt bh : Nat) (hbh : gw.recentBlockhashResult = Except.ok bh) :
    (∃ stx,
        GatewayCall.sendTransaction stx false Commitment.finalized ∈
          (withdraw gw k dest amt).2 ∧
        stx.signatures = [⟨k⟩]) ∧
    withdrawGetter k k.publicKey = some k ∧
    (∀ key, key ≠ k.publicKey → withdrawGetter k key = none) ∧
    (∀ tx getter stx2, Transaction.sign tx getter = Except.ok stx2 →
        stx2.signatures.length = tx.requiredSigners.length) := by
  refine ⟨?_, ?_, ?_, ?_⟩
  · rw [withdraw_ok_unfold gw k dest amt bh hbh]
    exact ⟨⟨⟨[NewTransferInstruction amt k.publicKey dest], bh, k.publicKey⟩, [⟨k⟩]⟩,
      by simp, rfl⟩
  · simp [withdrawGetter]
  · intro key hk
    simp [withdrawGetter, hk]
  · intro tx getter stx2 h
    unfold Transaction.sign at h
    cases hs : signEach getter tx.requiredSigners with
    | error e => rw [hs] at h; cases h
    | ok sigs =>
      rw [hs] at h
      cases h
      exact signEach_ok_length getter _ sigs hs

/-- C2 witness at a concrete input. -/
theorem C2_single_signature_wit :
    (∃ stx,
        GatewayCall.sendTransaction stx false Commitment.finalized ∈
          (withdraw ⟨Except.ok 7, Except.ok "sig"⟩ ⟨1⟩ ⟨2⟩ 5).2 ∧
        stx.signatures = [⟨⟨1⟩⟩]) ∧
    withdrawGetter ⟨1⟩ (PrivateKey.publicKey ⟨1⟩) = some ⟨1⟩ ∧
    (∀ key, key ≠ PrivateKey.publicKey ⟨1⟩ → withdrawGetter ⟨1⟩ key = none) ∧
    (∀ tx getter stx2, Transaction.sign tx getter = Except.ok stx2 →
        stx2.signatures.length = tx.requiredSigners.length) :=
  C2_single_signature ⟨Except.ok 7, Except.ok "sig"⟩ ⟨1⟩ ⟨2⟩ 5 7 rfl

/-- C3: for every sequence of N notifications delivered by the
subscription for one account, the monitor emits exactly N balance-update
events, in the same order as the notifications were received, each
carrying a strictly increasing local sequence number, and logs no
error. -/
theorem C3_monitor_emits_in_order (a : PublicKey) (ns : List Nat) :
    (monitorRun a 0 (ns.map Except.ok)).events.length = ns.length ∧
    (monitorRun a 0 (ns.map Except.ok)).events.map (fun e => e.lamports) = ns ∧
    List.Pairwise (fun x y => x < y)
      ((monitorRun a 0 (ns.map Except.ok)).events.map (fun e => e.seq)) ∧
    (monitorRun a 0 (ns.map Except.ok)).errorLogs = 0 := by
  obtain ⟨h1, h2, h3⟩ := monitorRun_map_ok a ns 0
  refine ⟨?_, h1, ?_, h3⟩
  · have hl := congrArg List.length h1
    simpa using hl
  · rw [h2]
    exact List.pairwise_lt_range' 0 ns.length

/-- C4 counterexample: the claim says a zero-amount withdrawal fails with
an explicit rejection and is never submitted. At a concrete input with
amount 0 and an accepting gateway, `withdraw` instead succeeds and the
trace contains a submission of a zero-lamport transfer: the source
performs no amount validation. -/
theorem C4_zero_amount_cex :
    (withdraw ⟨Except.ok 7, Except.ok "sig123"⟩ ⟨1⟩ ⟨2⟩ 0).1 =
      WithdrawOutcome.success "sig123" ∧
    GatewayCall.sendTransaction
        ⟨⟨[NewTransferInstruction 0 ⟨1⟩ ⟨2⟩], 7, ⟨1⟩⟩, [⟨⟨1⟩⟩]⟩
        false Commitment.finalized ∈
      (withdraw ⟨Except.ok 7, Except.ok "sig123"⟩ ⟨1⟩ ⟨2⟩ 0).2 := by
  constructor
  · rfl
  · decide

/-- C4 amended: `withdraw` performs no amount validation: a call with
amount = 0 builds, signs, and submits a zero-lamport transfer exactly
like any other amount, and reports success when the gateway accepts
it (it is rejected only if the gateway itself rejects it). -/
theorem C4_zero_amount_submitted (gw : Gateway) (k : PrivateKey) (dest : PublicKey)
    (bh : Nat) (s : String) (hbh : gw.recentBlockhashResult = Except.ok bh)
    (hs : gw.sendResult = Except.ok s) :
    (withdraw gw k dest 0).1 = WithdrawOutcome.success s ∧
    ∃ stx,
      GatewayCall.sendTransaction stx false Commitment.finalized ∈
        (withdraw gw k dest 0).2 ∧
      stx.tx.instructions = [NewTransferInstruction 0 k.publicKey dest] := by
  rw [withdraw_ok_unfold gw k dest 0 bh hbh, hs]
  exact ⟨rfl,
    ⟨⟨⟨[NewTransferInstruction 0 k.publicKey dest], bh, k.publicKey⟩, [⟨k⟩]⟩,
     by simp, rfl⟩⟩

/-- C4 amended witness at a concrete input. -/
theorem C4_zero_amount_submitted_wit :
    (withdraw ⟨Except.ok 7, Except.ok "sig"⟩ ⟨1⟩ ⟨2⟩ 0).1 =
      WithdrawOutcome.success "sig" ∧
    ∃ stx,
      GatewayCall.sendTransaction stx false Commitment.finalized ∈
        (withdraw ⟨Except.ok 7, Except.ok "sig"⟩ ⟨1⟩ ⟨2⟩ 0).2 ∧
      stx.tx.instructions = [NewTransferInstruction 0 (PrivateKey.publicKey ⟨1⟩) ⟨2⟩] :=
  C4_zero_amount_submitted ⟨Except.ok 7, Except.ok "sig"⟩ ⟨1⟩ ⟨2⟩ 7 "sig" rfl rfl

/-- C5 counterexample: the claim says a failed blockhash fetch makes the
withdrawal operation return the failure to its caller. At a concrete
input whose reference fetch fails, the outcome is a fatal `log.Fatalf`
abort of the whole process (`abortsProcess = true`); nothing is returned
to a caller — the Go function has no return value. -/
theorem C5_reference_failure_cex :
    (withdraw ⟨Except.error "timeout", Except.ok "sig"⟩ ⟨1⟩ ⟨2⟩ 5).1.abortsProcess
      = true ∧
    (withdraw ⟨Except.error "timeout", Except.ok "sig"⟩ ⟨1⟩ ⟨2⟩ 5).1 =
      WithdrawOutcome.fatal WithdrawStage.fetchBlockhash "timeout" :=
  ⟨rfl, rfl⟩

/-- C5 amended: if the recent-block-reference fetch fails, `withdraw`
aborts the whole process with a fatal blockhash-fetch failure (rather
than returning the failure to its caller) and performs no submission
call: zero submission invocations in that run. -/
theorem C5_reference_failure_no_submit (gw : Gateway) (k : PrivateKey)
    (dest : PublicKey) (amt : Nat) (e : String)
    (he : gw.recentBlockhashResult = Except.error e) :
    (withdraw gw k dest amt).1 = WithdrawOutcome.fatal WithdrawStage.fetchBlockhash e ∧
    (withdraw gw k dest amt).2.countP GatewayCall.isSend = 0 := by
  unfold withdraw
  rw [he]
  simp [GatewayCall.isSend]

/-- C5 amended witness at a concrete input. -/
theorem C5_reference_failure_no_submit_wit :
    (withdraw ⟨Except.error "timeout", Except.ok "sig"⟩ ⟨1⟩ ⟨2⟩ 5).1 =
      WithdrawOutcome.fatal WithdrawStage.fetchBlockhash "timeout" ∧
    (withdraw ⟨Except.error "timeout", Except.ok "sig"⟩ ⟨1⟩ ⟨2⟩ 5).2.countP
      GatewayCall.isSend = 0 :=
  C5_reference_failure_no_submit ⟨Except.error "timeout", Except.ok "sig"⟩
    ⟨1⟩ ⟨2⟩ 5 "timeout" rfl

/-- C6: a single malformed/failed notification amid N valid ones is
reported once and skipped: the monitor still emits all N events in
order, and the loop does not terminate the subscription. -/
theorem C6_malformed_skipped (a : PublicKey) (ns1 ns2 : List Nat) (e : String) :
    (monitorRun a 0 (ns1.map Except.ok ++ Except.error e :: ns2.map Except.ok)).events.map
        (fun ev => ev.lamports) = ns1 ++ ns2 ∧
    (monitorRun a 0 (ns1.map Except.ok ++ Except.error e :: ns2.map Except.ok)).events.length
        = ns1.length + ns2.length ∧
    (monitorRun a 0 (ns1.map Except.ok ++ Except.error e :: ns2.map Except.ok)).errorLogs
        = 1 ∧
    (monitorRun a 0 (ns1.map Except.ok ++ Except.error e :: ns2.map Except.ok)).exited
        = false := by
  obtain ⟨h1, h2⟩ := monitorRun_one_error a ns2 e ns1 0
  refine ⟨h1, ?_, h2, (monitorRun_never_exits a _ 0).1⟩
  have hl := congrArg List.length h1
  simpa using hl

/-- C7 counterexample: the claim says withdrawal failures are returned
to the caller and only identity-generation/connection failures abort the
process. At a concrete input whose submission is rejected, the
withdrawal failure aborts the whole process via `log.Fatalf`
(`abortsProcess = true`); nothing is returned to the caller. -/
theorem C7_withdraw_failure_aborts_cex :
    (withdraw ⟨Except.ok 3, Except.error "rejected"⟩ ⟨1⟩ ⟨2⟩ 5).1.abortsProcess
      = true ∧
    (withdraw ⟨Except.ok 3, Except.error "rejected"⟩ ⟨1⟩ ⟨2⟩ 5).1 =
      WithdrawOutcome.fatal WithdrawStage.submitTransaction "rejected" := by
  decide

/-- C7 amended: every withdrawal failure that can occur (reference fetch
or submission) aborts the process with a fatal log, exactly as a failed
identity generation does; `withdraw` returns nothing to its caller. The
construction and signing steps never fail in this pipeline: the
instruction list is nonempty and the signing callback always covers the
only required signer. -/
theorem C7_all_failures_fatal (gw : Gateway) (k : PrivateKey) (dest : PublicKey)
    (amt : Nat) (e : String) :
    (gw.recentBlockhashResult = Except.error e →
      (withdraw gw k dest amt).1 =
        WithdrawOutcome.fatal WithdrawStage.fetchBlockhash e) ∧
    (∀ bh, gw.recentBlockhashResult = Except.ok bh →
      gw.sendResult = Except.error e →
      (withdraw gw k dest amt).1 =
        WithdrawOutcome.fatal WithdrawStage.submitTransaction e) ∧
    (∀ m, (withdraw gw k dest amt).1 ≠
        WithdrawOutcome.fatal WithdrawStage.buildTransaction m ∧
      (withdraw gw k dest amt).1 ≠
        WithdrawOutcome.fatal WithdrawStage.signTransaction m) ∧
    generateKeypair (Except.error e) = KeypairOutcome.fatal e := by
  refine ⟨?_, ?_, ?_, rfl⟩
  · intro he
    unfold withdraw
    rw [he]
  · intro bh hbh hsend
    rw [withdraw_ok_unfold gw k dest amt bh hbh, hsend]
  · intro m
    cases hrb : gw.recentBlockhashResult with
    | error e2 =>
      unfold withdraw
      rw [hrb]
      simp
    | ok bh =>
      rw [withdraw_ok_unfold gw k dest amt bh hrb]
      cases gw.sendResult <;> simp

/-- C7 amended witness at a concrete input. -/
theorem C7_all_failures_fatal_wit :
    (withdraw ⟨Except.error "x", Except.ok "sig"⟩ ⟨1⟩ ⟨2⟩ 5).1 =
      WithdrawOutcome.fatal WithdrawStage.fetchBlockhash "x" ∧
    generateKeypair (Except.error "x") = KeypairOutcome.fatal "x" :=
  ⟨(C7_all_failures_fatal ⟨Except.error "x", Except.ok "sig"⟩ ⟨1⟩ ⟨2⟩ 5 "x").1 rfl,
   (C7_all_failures_fatal ⟨Except.error "x", Except.ok "sig"⟩ ⟨1⟩ ⟨2⟩ 5 "x").2.2.2⟩

/-- C8 counterexample: the claim says stopping/cancelling the monitor
makes the run loop terminate and release the subscription handle exactly
once. At a concrete run the loop has not exited and the deferred
`Unsubscribe` has run zero times, not once; moreover even a receive
error — which is all a cancelled context could produce, since `Recv` is
given a non-cancellable `context.Background()` — makes the loop
continue rather than terminate. -/
theorem C8_no_close_cex :
    (monitorRun ⟨1⟩ 0 [Except.ok 5]).exited = false ∧
    (monitorRun ⟨1⟩ 0 [Except.ok 5]).unsubscribeCalls = 0 ∧
    (monitorBody ⟨1⟩ 0 (Except.error "cancelled")).2.2 = LoopControl.continueLoop := by
  decide

/-- C8 amended: the monitor's receive loop has no termination or
cancellation path: every iteration — on a notification or on a receive
error — continues the loop, the loop never exits, and the deferred
release of the subscription handle is therefore never invoked (zero
close calls after processing any prefix of the stream). -/
theorem C8_loop_never_releases (a : PublicKey) (i : Nat)
    (rs : List (Except String Nat)) :
    (monitorRun a i rs).exited = false ∧
    (monitorRun a i rs).unsubscribeCalls = 0 ∧
    (∀ r, (monitorBody a i r).2.2 = LoopControl.continueLoop) := by
  refine ⟨(monitorRun_never_exits a rs i).1, (monitorRun_never_exits a rs i).2, ?_⟩
  intro r
  cases r <;> rfl

/-- C9: every gateway interaction uses the finalized commitment level —
the blockhash fetch, the submission's preflight commitment, and the
account subscription — and submission never skips preflight
simulation. -/
theorem C9_finalized_everywhere (gw : Gateway) (k : PrivateKey)
    (dest acct : PublicKey) (amt : Nat) :
    (withdraw gw k dest amt).2.all GatewayCall.usesFinalized = true ∧
    (monitorSubscribe acct).commitment = Commitment.finalized := by
  refine ⟨?_, rfl⟩
  cases hrb : gw.recentBlockhashResult with
  | error e =>
    unfold withdraw
    rw [hrb]
    rfl
  | ok bh =>
    rw [withdraw_ok_unfold gw k dest amt bh hrb]
    rfl

/-- C10: the entry-point amount `uint64(0.1 * LamportsPerSOL)` evaluates
to exactly 100000000 lamports, and the transfer instruction submitted
for that scenario carries the literal amount 100000000, fee payer the
source, a single signature, and a submission stub returning "sig123"
makes the run report "sig123". -/
theorem C10_amount_is_100000000 (k : PrivateKey) (dest : PublicKey) :
    mainAmount = 100000000 ∧
    withdraw ⟨Except.ok 7, Except.ok "sig123"⟩ k dest mainAmount =
      (WithdrawOutcome.success "sig123",
       [GatewayCall.getRecentBlockhash Commitment.finalized,
        GatewayCall.sendTransaction
          ⟨⟨[NewTransferInstruction 100000000 k.publicKey dest], 7, k.publicKey⟩,
           [⟨k⟩]⟩
          false Commitment.finalized]) := by
  have hm : mainAmount = 100000000 := by
    have h : ((1 / 10 : ℚ) * (LamportsPerSOL : ℚ)) = (100000000 : ℚ) := by
      norm_num [LamportsPerSOL]
    rw [mainAmount, h]
    norm_num
    rfl
  refine ⟨hm, ?_⟩
  rw [hm,
    withdraw_ok_unfold ⟨Except.ok 7, Except.ok "sig123"⟩ k dest 100000000 7 rfl]


end SolDW
